import Mathlib

/-
Verification of the snow-vr simulation core (src/main.ts).

The embedding models the numeric state of the program over the reals:
the source runs on JavaScript doubles, and every formula below is the
exact real-arithmetic counterpart of the corresponding source line.
Three.js `Vector3` operations that mutate their receiver in place are
translated by value; where the source re-uses a vector object after an
in-place scaling, the embedding reads the scaled vector, exactly as the
program does.

Scene-graph concerns (meshes, materials, debug entities, rotation of the
visual ball, reparenting transforms) and the input/haptics collaborators
are outside the model: the tracked fingertip point arrives as an input of
each tick or grab event, and haptic pulses are collected as output
events.  Entities are identified by numeric handles; the registry
(`snow` system's insertion-ordered `Set`) is an association list in
registration order.
-/

set_option maxHeartbeats 1000000

noncomputable section

namespace SnowVR

/-- 3D vector over the reals, standing for a three.js `Vector3`. -/
structure Vec3 where
  x : ℝ
  y : ℝ
  z : ℝ

def Vec3.zero : Vec3 := ⟨0, 0, 0⟩

/-- `a.add(b)` on three.js vectors. -/
def vadd (a b : Vec3) : Vec3 := ⟨a.x + b.x, a.y + b.y, a.z + b.z⟩

/-- `a.sub(b)` on three.js vectors. -/
def vsub (a b : Vec3) : Vec3 := ⟨a.x - b.x, a.y - b.y, a.z - b.z⟩

/-- `v.multiplyScalar(c)` on three.js vectors. -/
def vscale (c : ℝ) (v : Vec3) : Vec3 := ⟨c * v.x, c * v.y, c * v.z⟩

/-- `a.dot(b)` on three.js vectors. -/
def vdot (a b : Vec3) : ℝ := a.x * b.x + a.y * b.y + a.z * b.z

/-- `v.length()` on three.js vectors. -/
def vnorm (v : Vec3) : ℝ := Real.sqrt (vdot v v)

/-- `a.distanceTo(b)` on three.js vectors. -/
def vdist (a b : Vec3) : ℝ := vnorm (vsub a b)

/-- `a.lerp(b, t)` on three.js vectors. -/
def vlerp (a b : Vec3) (t : ℝ) : Vec3 :=
  ⟨a.x + (b.x - a.x) * t, a.y + (b.y - a.y) * t, a.z + (b.z - a.z) * t⟩

/-- `Math.hypot(a, b)`. -/
def hypot2 (a b : ℝ) : ℝ := Real.sqrt (a ^ 2 + b ^ 2)

/-- Horizontal (x/z-plane) distance, `Math.hypot(ax - bx, az - bz)`. -/
def horizDist (a b : Vec3) : ℝ := hypot2 (a.x - b.x) (a.z - b.z)

/-!
## Snowball body (`snowball` component, src/main.ts lines 366-478)

State: `baseRadius` fixed at init, `radius` grown by rolling, `velocity`,
the world `position` owned by the scene graph, and the uniform visual
`scale` that `growBy` writes via `object3D.scale.setScalar`.
-/

structure Snowball where
  pos : Vec3
  velocity : Vec3
  radius : ℝ
  baseRadius : ℝ
  scale : ℝ

/-- `snowball.init` (lines 371-385): `baseRadius := data.radius`,
`radius := data.radius`, zero velocity; a fresh entity has unit scale. -/
def snowballInit (r : ℝ) (p : Vec3) : Snowball :=
  { pos := p, velocity := Vec3.zero, radius := r, baseRadius := r, scale := 1 }

/-- `snowball.applyImpulse` (lines 393-396): `velocity.add(impulse)`. -/
def applyImpulse (impulse : Vec3) (s : Snowball) : Snowball :=
  { s with velocity := vadd s.velocity impulse }

/-- `snowball.growBy` (lines 397-410): no-op when `distance <= 0`, else
`radius += distance * 0.05` and the visual scale becomes
`radius / baseRadius`. -/
def growBy (distance : ℝ) (s : Snowball) : Snowball :=
  if distance ≤ 0 then s
  else
    let radius := s.radius + distance * 0.05
    { s with radius := radius, scale := radius / s.baseRadius }

/-- One pairwise resolution of `me` against `other` (lines 438-474).

The source computes the unit normal, then repositions with
`normal.multiplyScalar(minDistance)` — an in-place scaling, so every
later read of `normal` (the separation dot product, the cancellation,
the tangential projection) sees the vector of length `minDistance`,
not the unit normal.  The embedding reproduces that aliasing. -/
def collideOne (deltaSeconds : ℝ) (other : Snowball) (me : Snowball) : Snowball :=
  let delta := vsub me.pos other.pos
  let distance := vnorm delta
  let minDistance := me.radius + other.radius
  if 0 < distance ∧ distance < minDistance then
    let horizontalDistance := vnorm ⟨delta.x, 0, delta.z⟩
    let unitNormal :=
      if me.pos.y ≥ other.pos.y ∧ horizontalDistance < minDistance * 0.6 then
        (⟨0, 1, 0⟩ : Vec3)
      else vscale (1 / distance) delta
    let normal := vscale minDistance unitNormal
    let newPos := vadd other.pos normal
    let separation := vdot me.velocity normal
    let v1 := if separation < 0 then vadd me.velocity (vscale (-separation) normal)
              else me.velocity
    let tangential := vsub v1 (vscale (vdot v1 normal) normal)
    let friction := max 0 (1 - 20.0 * deltaSeconds)
    let v2 := vsub v1 (vscale (1 - friction) tangential)
    { me with pos := newPos, velocity := v2 }
  else me

/-- One relaxation pass of `me` against every other live snowball,
in registry order (the inner `for other of snowballs` loop). -/
def resolvePass (deltaSeconds : ℝ) (others : List Snowball) (me : Snowball) : Snowball :=
  others.foldl (fun acc other => collideOne deltaSeconds other acc) me

/-- `snowball.tick` (lines 411-477): gravity, integration, ground clamp
with horizontal friction, then two relaxation passes.  There is no
held/grabbed check anywhere in this function. -/
def snowballTick (groundHeight deltaSeconds : ℝ) (others : List Snowball)
    (s : Snowball) : Snowball :=
  if deltaSeconds ≤ 0 then s
  else
    let vel1 : Vec3 := ⟨s.velocity.x, s.velocity.y + -9.8 * deltaSeconds, s.velocity.z⟩
    let pos1 := vadd s.pos (vscale deltaSeconds vel1)
    let floorY := groundHeight + s.radius
    let moved : Snowball :=
      if pos1.y < floorY then
        let vy := if vel1.y < 0 then 0 else vel1.y
        let groundFriction := max 0 (1 - 3.0 * deltaSeconds)
        { s with pos := ⟨pos1.x, floorY, pos1.z⟩,
                 velocity := ⟨vel1.x * groundFriction, vy, vel1.z * groundFriction⟩ }
      else { s with pos := pos1, velocity := vel1 }
    resolvePass deltaSeconds others (resolvePass deltaSeconds others moved)

/-!
## Trace of all snowball-state mutations

Every mutation the program ever performs on a snowball's state is one of:
`growBy` (rolling growth), `applyImpulse` (rolling push), a direct
velocity write (`velocity.set` / `velocity.copy` at grab, release and
roll-release), a direct position write (rolling move, stacking snap,
ground snap), or the per-frame physics `tick`.  `SnowballOp` enumerates
them; only `growBy` touches `radius`.
-/

inductive SnowballOp where
  | grow (d : ℝ)
  | impulse (v : Vec3)
  | setVel (v : Vec3)
  | setPos (p : Vec3)
  | tick (ground dt : ℝ) (others : List Snowball)

def applySnowballOp (s : Snowball) : SnowballOp → Snowball
  | .grow d => growBy d s
  | .impulse v => applyImpulse v s
  | .setVel v => { s with velocity := v }
  | .setPos p => { s with pos := p }
  | .tick g dt others => snowballTick g dt others s

def applySnowballOps (s : Snowball) (ops : List SnowballOp) : Snowball :=
  ops.foldl applySnowballOp s

/-!
## World-state registry (`snow` system, lines 162-185)
-/

structure World where
  groundHeight : ℝ
  snowballs : List (ℕ × Snowball)
  lastSpawnTime : ℝ
  nextId : ℕ

/-- `registerSnowball`: adds to the insertion-ordered live set. -/
def registerSnowball (w : World) (sb : Snowball) : World :=
  { w with snowballs := w.snowballs ++ [(w.nextId, sb)], nextId := w.nextId + 1 }

/-- `unregisterSnowball`: removes from the live set (entity `remove`). -/
def unregisterSnowball (w : World) (id : ℕ) : World :=
  { w with snowballs := w.snowballs.filter (fun e => e.1 ≠ id) }

/-- `setGroundHeight`. -/
def setGroundHeight (w : World) (h : ℝ) : World := { w with groundHeight := h }

/-- Dereference an entity handle in the registry. -/
def findSnowball (id : ℕ) : List (ℕ × Snowball) → Option Snowball
  | [] => none
  | e :: rest => if e.1 = id then some e.2 else findSnowball id rest

/-- Write back the mutated state of one snowball entity. -/
def updateSnowballEntry (w : World) (id : ℕ) (sb : Snowball) : World :=
  { w with snowballs := w.snowballs.map (fun e => if e.1 = id then (id, sb) else e) }

/-- The `snowball.tick` of the body registered under `id`, at world level:
only that body's entry is written; the positions of all other bodies are
read but never written. -/
def tickSnowballInWorld (dt : ℝ) (w : World) (id : ℕ) : World :=
  match findSnowball id w.snowballs with
  | none => w
  | some sb =>
      updateSnowballEntry w id
        (snowballTick w.groundHeight dt
          ((w.snowballs.filter (fun e => e.1 ≠ id)).map Prod.snd) sb)

/-!
## Snowfall particles (`snowfall` component, lines 222-363)

Only the per-particle positional update of `tick` (lines 308-329) is
modeled: wind, sway, fall, and the toroidal wrap at the area boundary.
The subsequent below-ground recycling re-randomizes a particle from the
RNG collaborator and is outside the wrap stage.
-/

structure Particle where
  pos : Vec3
  velocity : ℝ
  phase : ℝ
  scale : ℝ

/-- The wrap applied to each horizontal coordinate (lines 320-329). -/
def wrapCoord (halfArea p : ℝ) : ℝ :=
  if p > halfArea then -halfArea else if p < -halfArea then halfArea else p

/-- One particle's positional update for a tick (lines 308-329):
wind and sway on x/z, fall on y, then the toroidal wrap on x and z. -/
def particleMove (time deltaSeconds windX windZ halfArea : ℝ) (p : Particle) : Particle :=
  let swaySpeed := 0.0012
  let swayAmp := 0.12
  let swayX := Real.sin (time * swaySpeed + p.phase) * swayAmp
  let swayZ := Real.cos (time * swaySpeed * 1.3 + p.phase) * swayAmp
  let x1 := p.pos.x + windX * deltaSeconds + swayX * deltaSeconds
  let y1 := p.pos.y - p.velocity * deltaSeconds
  let z1 := p.pos.z + windZ * deltaSeconds + swayZ * deltaSeconds
  { p with pos := ⟨wrapCoord halfArea x1, y1, wrapCoord halfArea z1⟩ }

/-!
## Hand interaction controller (`rolling-hand` component, lines 481-907)

The fingertip point (`getHandPoint`, a pose-dependent offset of the
tracked controller) is an input of each tick/grab event.  `handSign`,
`fingertipOffset` and the debug entities only affect that input or the
visuals, so they do not appear in the state transition itself;
`fingertipOffset`, `debug` and the unreferenced `crushThreshold` are
kept in the configuration record as declared by the schema.
-/

structure HandConfig where
  handRadius : ℝ
  releasePadding : ℝ
  pushStrength : ℝ
  sinkDepth : ℝ
  rollThreshold : ℝ
  crushThreshold : ℝ
  fingertipOffset : Vec3
  debug : Bool

structure HandState where
  rollingSnowball : Option ℕ
  grabbedSnowball : Option ℕ
  lastHandPosition : Option Vec3
  prevHandPosition : Option Vec3
  smoothedHandPoint : Option Vec3
  handVelocity : Option Vec3
  lastHapticTime : ℝ

/-- `rolling-hand.init` (lines 493-521): all references null. -/
def initHandState : HandState :=
  { rollingSnowball := none, grabbedSnowball := none, lastHandPosition := none,
    prevHandPosition := none, smoothedHandPoint := none, handVelocity := none,
    lastHapticTime := 0 }

/-- `getContactDistance` (lines 577-582). -/
def contactDistance (cfg : HandConfig) (radius : ℝ) : ℝ :=
  max 0.005 (cfg.handRadius + radius - cfg.sinkDepth)

/-- `findNearestSnowball` (lines 583-597), after the first candidate has
replaced the `POSITIVE_INFINITY` sentinel: strict `<`, first found wins
ties. -/
def findNearestAux (hp : Vec3) (best : ℕ × Snowball) (bestDist : ℝ) :
    List (ℕ × Snowball) → (ℕ × Snowball) × ℝ
  | [] => (best, bestDist)
  | e :: rest =>
      if vdist e.2.pos hp < bestDist then findNearestAux hp e (vdist e.2.pos hp) rest
      else findNearestAux hp best bestDist rest

/-- `findNearestSnowball`: `none` on an empty registry (every real
distance beats the `POSITIVE_INFINITY` start, so the first element always
becomes the initial candidate). -/
def findNearest (hp : Vec3) : List (ℕ × Snowball) → Option ((ℕ × Snowball) × ℝ)
  | [] => none
  | e :: rest => some (findNearestAux hp e (vdist e.2.pos hp) rest)

/-- The horizontal-nearest search of `onGrabEnd` (lines 664-679), same
`POSITIVE_INFINITY`-seeded strict-`<` loop over horizontal distance. -/
def nearestHorizAux (p : Vec3) (best : ℕ × Snowball) (bestDist : ℝ) :
    List (ℕ × Snowball) → (ℕ × Snowball) × ℝ
  | [] => (best, bestDist)
  | e :: rest =>
      if horizDist p e.2.pos < bestDist then nearestHorizAux p e (horizDist p e.2.pos) rest
      else nearestHorizAux p best bestDist rest

def nearestHoriz (p : Vec3) : List (ℕ × Snowball) → Option ((ℕ × Snowball) × ℝ)
  | [] => none
  | e :: rest => some (nearestHorizAux p e (horizDist p e.2.pos) rest)

/-- `createSnowballEntity` (lines 90-135): a fresh default snowball of
radius 0.03 at the given position. -/
def mkSpawnedSnowball (p : Vec3) : Snowball := snowballInit 0.03 p

/-- The throw-velocity computation of `onGrabEnd` (lines 649-658):
60% of the estimated hand velocity, zeroed under 0.2 m/s, and
`setLength(3.0)` (= scaling by `3.0 / speed`) above 3.0 m/s. -/
def throwVel (handVelocity : Vec3) : Vec3 :=
  let throwVelocity := vscale 0.6 handVelocity
  let throwSpeed := vnorm throwVelocity
  if throwSpeed < 0.2 then Vec3.zero
  else if throwSpeed > 3.0 then vscale (3.0 / throwSpeed) throwVelocity
  else throwVelocity

/-- Inputs of one `rolling-hand.tick`: the raw fingertip point computed
from the tracked pose, the frame delta in milliseconds, and
`performance.now()`. -/
structure TickIn where
  rawHandPoint : Vec3
  dtMs : ℝ
  now : ℝ

/-- Outputs of one `rolling-hand.tick`: the mutated hand state and world,
the emitted haptic pulses `(intensity, duration)`, and the position of
the snowball spawned by drag, if any. -/
structure TickOut where
  state : HandState
  world : World
  haptics : List (ℝ × ℝ)
  spawned : Option Vec3

/-- Contact acquisition (lines 761-773): when neither rolling nor
grabbing, begin rolling the nearest snowball if it is within contact
distance, recording the hand point as the rolling reference. -/
def acquireStage (cfg : HandConfig) (st0 : HandState)
    (snowballsArr : List (ℕ × Snowball)) (handPoint : Vec3) : HandState :=
  if st0.rollingSnowball = none ∧ st0.grabbedSnowball = none then
    match findNearest handPoint snowballsArr with
    | some (e, d) =>
        if d ≤ contactDistance cfg e.2.radius then
          { st0 with rollingSnowball := some e.1, lastHandPosition := some handPoint }
        else st0
    | none => st0
  else st0

/-- The rolling update of the tick (lines 775-905): release when the
hand strays past `contactDistance + releasePadding`; otherwise crush
(destroy, strong pulse, early `return` that skips the
`prevHandPosition` write of line 904) when the hand presses down from
above; otherwise push, reclamp to the ground, impulse, and grow.  The
push branch reads `handDelta` *after*
`impulse = handDelta.multiplyScalar(pushStrength)` has scaled it in
place, so the ball is moved by the scaled delta.  A rolling reference
whose entity is no longer registered (possible only through the other
hand, which is outside this single-hand model) is passed through
unchanged. -/
def rollingStage (cfg : HandConfig) (st1 : HandState) (w1 : World) (handPoint : Vec3)
    (now : ℝ) (haps1 : List (ℝ × ℝ)) (spawned : Option Vec3) : TickOut :=
  match st1.rollingSnowball, st1.grabbedSnowball with
  | some id, none =>
    match findSnowball id w1.snowballs with
    | none =>
        { state := { st1 with prevHandPosition := some handPoint }, world := w1,
          haptics := haps1, spawned := spawned }
    | some sb =>
        let snowballRadius := sb.radius
        let cd := contactDistance cfg snowballRadius
        let distanceToHand := vdist sb.pos handPoint
        if distanceToHand > cd + cfg.releasePadding then
          { state := { st1 with
                       rollingSnowball := none,
                       lastHandPosition := none,
                       prevHandPosition := some handPoint },
            world := updateSnowballEntry w1 id { sb with velocity := Vec3.zero },
            haptics := haps1, spawned := spawned }
        else
          match st1.lastHandPosition with
          | some lhp =>
              if distanceToHand ≤ cd then
                let rollDelta := vsub handPoint lhp
                let fromAbove := handPoint.y ≥ sb.pos.y + snowballRadius * 0.25
                let pressedInto := distanceToHand ≤ snowballRadius * 0.55
                let nearTop := handPoint.y - sb.pos.y ≤ snowballRadius * 0.55
                if fromAbove ∧ pressedInto ∧ nearTop then
                  { state := { st1 with rollingSnowball := none, lastHandPosition := none },
                    world := unregisterSnowball w1 id,
                    haptics := haps1 ++ [(0.8, 60)], spawned := spawned }
                else
                  let handDelta0 : Vec3 := ⟨rollDelta.x, 0, rollDelta.z⟩
                  let handDelta := if fromAbove ∧ rollDelta.y < 0 then Vec3.zero else handDelta0
                  let impulse := vscale cfg.pushStrength handDelta
                  let moveDelta := impulse
                  let newPos0 := vadd sb.pos moveDelta
                  let newPos : Vec3 := ⟨newPos0.x, w1.groundHeight + snowballRadius, newPos0.z⟩
                  let sbMoved := { sb with pos := newPos, velocity := vadd sb.velocity impulse }
                  let rolledDistance := vnorm moveDelta
                  let sizeFactor := max 1 (sb.radius / sb.baseRadius)
                  let grown := if rolledDistance ≥ cfg.rollThreshold then
                      growBy (rolledDistance / sizeFactor) sbMoved
                    else sbMoved
                  let hapNow := rolledDistance ≥ cfg.rollThreshold ∧
                    now - st1.lastHapticTime > 120
                  let haps2 : List (ℝ × ℝ) := if hapNow then
                      haps1 ++ [(min 1 (0.2 * min 2.5 sizeFactor), 20)]
                    else haps1
                  let newHapticTime := if hapNow then now else st1.lastHapticTime
                  { state := { st1 with
                               lastHandPosition := some handPoint,
                               lastHapticTime := newHapticTime,
                               prevHandPosition := some handPoint },
                    world := updateSnowballEntry w1 id grown,
                    haptics := haps2, spawned := spawned }
              else
                { state := { st1 with
                             lastHandPosition := some handPoint,
                             prevHandPosition := some handPoint },
                  world := w1, haptics := haps1, spawned := spawned }
          | none =>
              { state := { st1 with
                           lastHandPosition := some handPoint,
                           prevHandPosition := some handPoint },
                world := w1, haptics := haps1, spawned := spawned }
  | _, _ =>
      { state := { st1 with prevHandPosition := some handPoint }, world := w1,
        haptics := haps1, spawned := spawned }

/-- `rolling-hand.tick` (lines 701-905), in source order: exponential
smoothing of the fingertip point, velocity estimate, spawn-by-drag
(throttled by the shared `lastSpawnTime`; the outer guard of line 741
and the inner test of line 750 form one conjunction), contact
acquisition over the registry array captured *before* the spawn
(line 737), then the rolling update. -/
def handTick (cfg : HandConfig) (st : HandState) (w : World) (inp : TickIn) : TickOut :=
  let dt := max 0.001 (inp.dtMs / 1000)
  let smoothBase := st.smoothedHandPoint.getD inp.rawHandPoint
  let smoothFactor := 1 - Real.exp (-(dt * 18))
  let handPoint := vlerp smoothBase inp.rawHandPoint smoothFactor
  let handVelocity := match st.prevHandPosition with
    | some p => vscale (1 / dt) (vsub handPoint p)
    | none => Vec3.zero
  let rawDelta := match st.prevHandPosition with
    | some p => vsub handPoint p
    | none => Vec3.zero
  let st0 := { st with smoothedHandPoint := some handPoint, handVelocity := some handVelocity }
  let snowballsArr := w.snowballs
  let spawnPos : Vec3 := ⟨handPoint.x, w.groundHeight + 0.03, handPoint.z⟩
  let doSpawn := st.rollingSnowball = none ∧ st.grabbedSnowball = none ∧
    inp.now - w.lastSpawnTime > 350 ∧
    handPoint.y ≤ w.groundHeight + cfg.handRadius + 0.05 ∧
    hypot2 rawDelta.x rawDelta.z > 0.005 ∧
    rawDelta.y > 0.006
  let w1 := if doSpawn then
      { registerSnowball w (mkSpawnedSnowball spawnPos) with lastSpawnTime := inp.now }
    else w
  let haps1 : List (ℝ × ℝ) := if doSpawn then [(0.4, 30)] else []
  let spawned : Option Vec3 := if doSpawn then some spawnPos else none
  let st1 := acquireStage cfg st0 snowballsArr handPoint
  rollingStage cfg st1 w1 handPoint inp.now haps1 spawned

/-- `onGrabStart` (lines 598-633): no-op while already grabbing; else
grab the nearest snowball when within `contactDistance + 0.01`, clearing
the rolling reference, zeroing the ball's velocity (the reparenting
under the hand is a scene-graph effect) and pulsing haptics. -/
def grabStart (cfg : HandConfig) (st : HandState) (w : World) (handPoint : Vec3) :
    HandState × World × List (ℝ × ℝ) :=
  if st.grabbedSnowball ≠ none then (st, w, [])
  else
    match findNearest handPoint w.snowballs with
    | none => (st, w, [])
    | some (e, d) =>
        if d ≤ contactDistance cfg e.2.radius + 0.01 then
          ({ st with
             grabbedSnowball := some e.1,
             rollingSnowball := none,
             lastHandPosition := none },
           updateSnowballEntry w e.1 { e.2 with velocity := Vec3.zero },
           [(min 1 (0.6 * min 2.0 (max 1 (e.2.radius / e.2.baseRadius))), 40)])
        else (st, w, [])

/-- `onGrabEnd` (lines 634-700): release the grabbed ball at its current
world position with the clamped throw velocity, snap it on top of the
horizontally nearest other ball within `1.2 ×` that ball's radius, else
clamp it to ground height, pulse haptics, and clear the grab reference.
A stale reference (removable only by the other hand, outside this
single-hand model) is just cleared. -/
def grabEnd (_cfg : HandConfig) (st : HandState) (w : World) :
    HandState × World × List (ℝ × ℝ) :=
  match st.grabbedSnowball with
  | none => (st, w, [])
  | some id =>
      match findSnowball id w.snowballs with
      | none => ({ st with grabbedSnowball := none }, w, [])
      | some sb =>
          let worldPosition := sb.pos
          let sb1 := { sb with velocity := throwVel (st.handVelocity.getD Vec3.zero) }
          let others := w.snowballs.filter (fun e => e.1 ≠ id)
          let sb2 := match nearestHoriz worldPosition others with
            | some (e, d) =>
                if d ≤ e.2.radius * 1.2 then
                  { sb1 with pos := ⟨e.2.pos.x, e.2.pos.y + e.2.radius + sb.radius, e.2.pos.z⟩ }
                else if sb1.pos.y < w.groundHeight + sb.radius then
                  { sb1 with pos := ⟨sb1.pos.x, w.groundHeight + sb.radius, sb1.pos.z⟩ }
                else sb1
            | none =>
                if sb1.pos.y < w.groundHeight + sb.radius then
                  { sb1 with pos := ⟨sb1.pos.x, w.groundHeight + sb.radius, sb1.pos.z⟩ }
                else sb1
          ({ st with grabbedSnowball := none },
           updateSnowballEntry w id sb2,
           [(min 1 (0.3 * min 2.0 (max 1 (sb.radius / sb.baseRadius))), 30)])

/-- The discrete inputs a hand receives: a frame tick, a
`gripdown`/`grabstart` event, or a `gripup`/`grabend` event. -/
inductive HandEvent where
  | frame (inp : TickIn)
  | gripDown (handPoint : Vec3)
  | gripUp

def handStep (cfg : HandConfig) (s : HandState × World) : HandEvent → HandState × World
  | .frame inp =>
      let out := handTick cfg s.1 s.2 inp
      (out.state, out.world)
  | .gripDown hp =>
      let r := grabStart cfg s.1 s.2 hp
      (r.1, r.2.1)
  | .gripUp =>
      let r := grabEnd cfg s.1 s.2
      (r.1, r.2.1)

/-- A hand's whole history: the event stream applied from `init`. -/
def runHand (cfg : HandConfig) (w0 : World) (events : List HandEvent) :
    HandState × World :=
  events.foldl (handStep cfg) (initHandState, w0)

/-!
# Theorems
-/

@[ext] theorem Vec3.extOfFieldsVec {a b : Vec3} (hx : a.x = b.x) (hy : a.y = b.y)
    (hz : a.z = b.z) : a = b := by
  cases a; cases b; simp_all

@[ext] theorem Snowball.extOfFieldsBall {a b : Snowball} (hp : a.pos = b.pos)
    (hv : a.velocity = b.velocity) (hr : a.radius = b.radius)
    (hb : a.baseRadius = b.baseRadius) (hs : a.scale = b.scale) : a = b := by
  cases a; cases b; simp_all

theorem vdot_self_nonneg (v : Vec3) : 0 ≤ vdot v v := by
  unfold vdot
  nlinarith [sq_nonneg v.x, sq_nonneg v.y, sq_nonneg v.z]

theorem vnorm_nonneg (v : Vec3) : 0 ≤ vnorm v := Real.sqrt_nonneg _

theorem vnorm_scale (c : ℝ) (v : Vec3) : vnorm (vscale c v) = |c| * vnorm v := by
  unfold vnorm vscale vdot
  have h : c * v.x * (c * v.x) + c * v.y * (c * v.y) + c * v.z * (c * v.z)
      = c ^ 2 * (v.x * v.x + v.y * v.y + v.z * v.z) := by ring
  rw [h, Real.sqrt_mul (sq_nonneg c), Real.sqrt_sq_eq_abs]

theorem vsub_vadd_cancel (a b : Vec3) : vsub (vadd a b) a = b := by
  unfold vsub vadd; ext <;> ring

theorem vnorm_axis_x (a : ℝ) : vnorm ⟨a, 0, 0⟩ = |a| := by
  unfold vnorm vdot
  simp only
  rw [show a * a + 0 * 0 + 0 * 0 = a * a by ring, Real.sqrt_mul_self_eq_abs]

theorem vnorm_unitY : vnorm ⟨0, 1, 0⟩ = 1 := by
  unfold vnorm vdot
  norm_num

theorem vlerp_self (a : Vec3) (t : ℝ) : vlerp a a t = a := by
  unfold vlerp; ext <;> simp

theorem abs_sub_eval {a b c : ℝ} (h : a - b = c) (hc : 0 ≤ c) : |a - b| = c := by
  rw [h, abs_of_nonneg hc]

theorem abs_sub_eval_neg {a b c : ℝ} (h : a - b = -c) (hc : 0 ≤ c) : |a - b| = c := by
  rw [h, abs_neg, abs_of_nonneg hc]

theorem vdist_xaxis (x1 x2 y z : ℝ) : vdist ⟨x1, y, z⟩ ⟨x2, y, z⟩ = |x1 - x2| := by
  unfold vdist
  rw [show vsub (⟨x1, y, z⟩ : Vec3) ⟨x2, y, z⟩ = ⟨x1 - x2, 0, 0⟩ from by
    unfold vsub; ext <;> ring]
  exact vnorm_axis_x _

/-!
### Radius preservation through the physics tick
-/

theorem collideOne_radius (dt : ℝ) (other me : Snowball) :
    (collideOne dt other me).radius = me.radius ∧
    (collideOne dt other me).baseRadius = me.baseRadius ∧
    (collideOne dt other me).scale = me.scale := by
  unfold collideOne
  dsimp only
  split <;> exact ⟨rfl, rfl, rfl⟩

theorem resolvePass_radius (dt : ℝ) (others : List Snowball) (me : Snowball) :
    (resolvePass dt others me).radius = me.radius ∧
    (resolvePass dt others me).baseRadius = me.baseRadius ∧
    (resolvePass dt others me).scale = me.scale := by
  induction others generalizing me with
  | nil => exact ⟨rfl, rfl, rfl⟩
  | cons o rest ih =>
      have h1 := collideOne_radius dt o me
      have h2 := ih (collideOne dt o me)
      unfold resolvePass at h2 ⊢
      simp only [List.foldl_cons]
      exact ⟨h2.1.trans h1.1, h2.2.1.trans h1.2.1, h2.2.2.trans h1.2.2⟩

theorem snowballTick_radius (g dt : ℝ) (others : List Snowball) (s : Snowball) :
    (snowballTick g dt others s).radius = s.radius ∧
    (snowballTick g dt others s).baseRadius = s.baseRadius ∧
    (snowballTick g dt others s).scale = s.scale := by
  unfold snowballTick
  dsimp only
  split
  · exact ⟨rfl, rfl, rfl⟩
  · refine ⟨?_, ?_, ?_⟩
    · rw [(resolvePass_radius _ _ _).1, (resolvePass_radius _ _ _).1]
      split <;> rfl
    · rw [(resolvePass_radius _ _ _).2.1, (resolvePass_radius _ _ _).2.1]
      split <;> rfl
    · rw [(resolvePass_radius _ _ _).2.2, (resolvePass_radius _ _ _).2.2]
      split <;> rfl

theorem growBy_radius_mono (d : ℝ) (s : Snowball) :
    s.radius ≤ (growBy d s).radius ∧ (growBy d s).baseRadius = s.baseRadius := by
  unfold growBy
  split
  · exact ⟨le_refl _, rfl⟩
  · rename_i h
    push_neg at h
    constructor
    · simp only
      nlinarith
    · rfl

theorem applySnowballOp_radius (s : Snowball) (op : SnowballOp) :
    s.radius ≤ (applySnowballOp s op).radius ∧
    (applySnowballOp s op).baseRadius = s.baseRadius := by
  cases op with
  | grow d => exact growBy_radius_mono d s
  | impulse v => exact ⟨le_refl _, rfl⟩
  | setVel v => exact ⟨le_refl _, rfl⟩
  | setPos p => exact ⟨le_refl _, rfl⟩
  | tick g dt others =>
      have h := snowballTick_radius g dt others s
      exact ⟨le_of_eq h.1.symm, h.2.1⟩

theorem applySnowballOps_radius (ops : List SnowballOp) (s : Snowball) :
    s.radius ≤ (applySnowballOps s ops).radius ∧
    (applySnowballOps s ops).baseRadius = s.baseRadius := by
  induction ops generalizing s with
  | nil => exact ⟨le_refl _, rfl⟩
  | cons op rest ih =>
      have h1 := applySnowballOp_radius s op
      have h2 := ih (applySnowballOp s op)
      unfold applySnowballOps at h2 ⊢
      simp only [List.foldl_cons]
      exact ⟨le_trans h1.1 h2.1, h2.2.trans h1.2⟩

/-- C2: starting from `snowball.init` (where `radius = baseRadius`), after
any sequence of the program's snowball operations `radius ≥ baseRadius`
holds, and the radius is non-decreasing along any continuation of the
trace: only `growBy` writes `radius`, and it only ever increases it. -/
theorem snowball_radius_invariant (r : ℝ) (p : Vec3) (ops more : List SnowballOp) :
    (applySnowballOps (snowballInit r p) ops).baseRadius ≤
      (applySnowballOps (snowballInit r p) ops).radius ∧
    (applySnowballOps (snowballInit r p) ops).radius ≤
      (applySnowballOps (snowballInit r p) (ops ++ more)).radius := by
  have h := applySnowballOps_radius ops (snowballInit r p)
  constructor
  · have hb : (applySnowballOps (snowballInit r p) ops).baseRadius = r := h.2
    have hr : r ≤ (applySnowballOps (snowballInit r p) ops).radius := h.1
    rw [hb]; exact hr
  · have happ : applySnowballOps (snowballInit r p) (ops ++ more)
        = applySnowballOps (applySnowballOps (snowballInit r p) ops) more := by
      unfold applySnowballOps
      exact List.foldl_append _ _ _ _
    rw [happ]
    exact (applySnowballOps_radius more _).1

/-- C7: `growBy` is a no-op (radius, scale, everything) for
`distance ≤ 0`; for `distance > 0` it adds exactly `distance * 0.05` to
the radius and sets the visual scale to the new `radius / baseRadius`. -/
theorem growBy_spec (s : Snowball) (d : ℝ) :
    (d ≤ 0 → growBy d s = s) ∧
    (0 < d → (growBy d s).radius = s.radius + d * 0.05 ∧
      (growBy d s).scale = (s.radius + d * 0.05) / s.baseRadius) := by
  constructor
  · intro h
    unfold growBy
    rw [if_pos h]
  · intro h
    unfold growBy
    rw [if_neg (by linarith)]
    exact ⟨rfl, rfl⟩

/-- C7 witness: concrete no-op at `distance = -1` and `distance = 0`, and
concrete growth at `distance = 2` from the default 0.03-radius ball. -/
theorem growBy_spec_witness :
    growBy (-1) (snowballInit 0.03 Vec3.zero) = snowballInit 0.03 Vec3.zero ∧
    growBy 0 (snowballInit 0.03 Vec3.zero) = snowballInit 0.03 Vec3.zero ∧
    (growBy 2 (snowballInit 0.03 Vec3.zero)).radius = 0.03 + 2 * 0.05 ∧
    (growBy 2 (snowballInit 0.03 Vec3.zero)).scale = (0.03 + 2 * 0.05) / 0.03 := by
  refine ⟨(growBy_spec _ _).1 (by norm_num), (growBy_spec _ _).1 (by norm_num),
    ((growBy_spec _ _).2 (by norm_num)).1, ?_⟩
  have h := ((growBy_spec (snowballInit 0.03 Vec3.zero) 2).2 (by norm_num)).2
  simpa [snowballInit] using h

/-!
### Closed form of a single x-axis resolution

For two bodies at the same height on the x-axis, far enough apart
laterally that the stacking branch is not taken, `collideOne` has the
following closed form (`n` is the x-component of the in-place-scaled
normal vector the source re-uses).
-/

theorem collideOne_xaxis (dt mx ox py r1 r2 b1 b2 s1 s2 vx : ℝ) (vo : Vec3)
    (hne : mx ≠ ox) (hover : |mx - ox| < r1 + r2)
    (hhor : ¬ |mx - ox| < (r1 + r2) * 0.6) :
    collideOne dt
      { pos := ⟨ox, py, 0⟩, velocity := vo, radius := r2, baseRadius := b2, scale := s2 }
      { pos := ⟨mx, py, 0⟩, velocity := ⟨vx, 0, 0⟩, radius := r1, baseRadius := b1, scale := s1 }
    = (let n := (r1 + r2) * ((mx - ox) / |mx - ox|)
       let v1 := if vx * n < 0 then vx - vx * n * n else vx
       { pos := ⟨ox + n, py, 0⟩,
         velocity := ⟨v1 - (1 - max 0 (1 - 20.0 * dt)) * (v1 - v1 * n * n), 0, 0⟩,
         radius := r1, baseRadius := b1, scale := s1 }) := by
  have had : 0 < |mx - ox| := abs_pos.mpr (sub_ne_zero.mpr hne)
  have hdelta : vsub (⟨mx, py, 0⟩ : Vec3) ⟨ox, py, 0⟩ = ⟨mx - ox, 0, 0⟩ := by
    unfold vsub; ext <;> ring
  unfold collideOne
  dsimp only
  rw [hdelta]
  dsimp only
  rw [vnorm_axis_x]
  rw [if_pos ⟨had, hover⟩]
  rw [if_neg (fun hc => hhor hc.2)]
  have hdotn : vdot ⟨vx, 0, 0⟩ (vscale (r1 + r2) (vscale (1 / |mx - ox|) ⟨mx - ox, 0, 0⟩))
      = vx * ((r1 + r2) * ((mx - ox) / |mx - ox|)) := by
    unfold vdot vscale
    dsimp only
    ring
  rw [hdotn]
  split
  · ext <;> simp only [vadd, vsub, vscale, vdot] <;> ring
  · ext <;> simp only [vadd, vsub, vscale, vdot] <;> ring

/-- C1 (code bug): for an overlapping pair (resolved body at x = 0.05 m
moving with velocity (-1,0,0) straight into the 0.03-radius body at the
origin; separating normal (1,0,0)), one collision-resolution step leaves
the velocity along the separating normal at exactly -0.00358704 m/s,
still strictly negative: because `normal.multiplyScalar(minDistance)`
rescales the shared vector in place before the velocity update, the
"cancellation" subtracts only a `minDistance^2` fraction of the inward
component instead of all of it. -/
theorem collideOne_inward_velocity_survives :
    vdist (⟨0.05, 0, 0⟩ : Vec3) ⟨0, 0, 0⟩ > 0 ∧
    vdist (⟨0.05, 0, 0⟩ : Vec3) ⟨0, 0, 0⟩ < 0.03 + 0.03 ∧
    vdot (⟨-1, 0, 0⟩ : Vec3) ⟨1, 0, 0⟩ < 0 ∧
    vdot (collideOne 0.1
        { pos := ⟨0, 0, 0⟩, velocity := Vec3.zero, radius := 0.03,
          baseRadius := 0.03, scale := 1 }
        { pos := ⟨0.05, 0, 0⟩, velocity := ⟨-1, 0, 0⟩, radius := 0.03,
          baseRadius := 0.03, scale := 1 }).velocity ⟨1, 0, 0⟩
      = -0.00358704 ∧
    (-0.00358704 : ℝ) < 0 := by
  have habs : |(0.05:ℝ) - 0| = 0.05 := abs_sub_eval (by norm_num) (by norm_num)
  have hdist : vdist (⟨0.05, 0, 0⟩ : Vec3) ⟨0, 0, 0⟩ = 0.05 := by
    rw [vdist_xaxis, habs]
  refine ⟨by rw [hdist]; norm_num, by rw [hdist]; norm_num,
    by unfold vdot; norm_num, ?_, by norm_num⟩
  rw [collideOne_xaxis 0.1 0.05 0 0 0.03 0.03 0.03 0.03 1 1 (-1) Vec3.zero
    (by norm_num) (by rw [habs]; norm_num) (by rw [habs]; norm_num)]
  simp only [habs]
  unfold vdot
  norm_num

/-!
### Exactness (and non-exactness) of the positional correction (C3)
-/

theorem resolvePass_single (dt : ℝ) (o me : Snowball) :
    resolvePass dt [o] me = collideOne dt o me := by
  unfold resolvePass
  simp only [List.foldl_cons, List.foldl_nil]

theorem findSnowball_map_update_ne (l : List (ℕ × Snowball)) (i j : ℕ) (sb : Snowball)
    (hne : j ≠ i) :
    findSnowball j (l.map (fun e => if e.1 = i then (i, sb) else e))
      = findSnowball j l := by
  induction l with
  | nil => rfl
  | cons e rest ih =>
      by_cases hei : e.1 = i
      · simp only [List.map_cons, if_pos hei, findSnowball]
        have h1 : ¬ (i = j) := fun h => hne h.symm
        have h2 : ¬ (e.1 = j) := fun h => h1 (hei.symm.trans h)
        simp [h1, h2, ih]
      · simp only [List.map_cons, if_neg hei, findSnowball]
        by_cases hej : e.1 = j <;> simp [hej, ih]

theorem findSnowball_updateSnowballEntry_ne (w : World) (i j : ℕ) (sb : Snowball)
    (hne : j ≠ i) :
    findSnowball j (updateSnowballEntry w i sb).snowballs = findSnowball j w.snowballs := by
  unfold updateSnowballEntry
  exact findSnowball_map_update_ne _ _ _ _ hne

/-- C3 amended: for the pair actually being resolved, the repositioning
is exact: immediately after `collideOne` the center distance to the other
body equals exactly the sum of the two radii; when that other body is the
only other body, the two relaxation passes of the tick end at exactly
that distance (the second pass is a no-op on a touching pair); and a
body's world-level tick never writes any other body's entry.  (With more
than one other body the distance claim fails — see the three-body
counterexample.) -/
theorem collide_pair_repositions_exactly (dt : ℝ) (me other : Snowball) (w : World)
    (i j : ℕ)
    (h0 : 0 < vdist me.pos other.pos)
    (h1 : vdist me.pos other.pos < me.radius + other.radius)
    (hij : j ≠ i) :
    vdist (collideOne dt other me).pos other.pos = me.radius + other.radius ∧
    vdist (resolvePass dt [other] (resolvePass dt [other] me)).pos other.pos
      = me.radius + other.radius ∧
    findSnowball j (tickSnowballInWorld dt w i).snowballs = findSnowball j w.snowballs := by
  have hm : 0 < me.radius + other.radius := h0.trans h1
  have hd0 : 0 < vnorm (vsub me.pos other.pos) := h0
  have hkey : vdist (collideOne dt other me).pos other.pos = me.radius + other.radius := by
    unfold vdist at h0 h1 ⊢
    unfold collideOne
    dsimp only
    rw [if_pos ⟨h0, h1⟩]
    dsimp only
    rw [vsub_vadd_cancel, vnorm_scale, abs_of_pos hm]
    split
    · rw [vnorm_unitY, mul_one]
    · rw [vnorm_scale, abs_of_pos (one_div_pos.mpr hd0), one_div_mul_cancel (ne_of_gt hd0),
        mul_one]
  refine ⟨hkey, ?_, ?_⟩
  · have hrad := (collideOne_radius dt other me).1
    have hnoop : collideOne dt other (collideOne dt other me) = collideOne dt other me := by
      set r1 := collideOne dt other me with hr1
      have hcond : ¬ (0 < vnorm (vsub r1.pos other.pos) ∧
          vnorm (vsub r1.pos other.pos) < r1.radius + other.radius) := by
        intro hc
        have heq : vnorm (vsub r1.pos other.pos) = me.radius + other.radius := hkey
        rw [heq, hrad] at hc
        exact lt_irrefl _ hc.2
      unfold collideOne
      dsimp only
      rw [if_neg hcond]
    rw [resolvePass_single, resolvePass_single, hnoop]
    exact hkey
  · unfold tickSnowballInWorld
    split
    · rfl
    · exact findSnowball_updateSnowballEntry_ne _ _ _ _ hij

/-- C3 witness: a concrete overlapping pair (0.045 m apart, radii 0.03)
ends at center distance exactly 0.06 after one resolution and after the
two passes, and ticking body 0 in a world leaves body 1's entry alone. -/
theorem collide_pair_repositions_exactly_witness :
    vdist (collideOne 0.1
        { pos := ⟨0, 0, 0⟩, velocity := Vec3.zero, radius := 0.03,
          baseRadius := 0.03, scale := 1 }
        { pos := ⟨0.045, 0, 0⟩, velocity := Vec3.zero, radius := 0.03,
          baseRadius := 0.03, scale := 1 }).pos ⟨0, 0, 0⟩ = 0.03 + 0.03 ∧
    vdist (resolvePass 0.1
        [{ pos := ⟨0, 0, 0⟩, velocity := Vec3.zero, radius := 0.03,
           baseRadius := 0.03, scale := 1 }]
        (resolvePass 0.1
          [{ pos := ⟨0, 0, 0⟩, velocity := Vec3.zero, radius := 0.03,
             baseRadius := 0.03, scale := 1 }]
          { pos := ⟨0.045, 0, 0⟩, velocity := Vec3.zero, radius := 0.03,
            baseRadius := 0.03, scale := 1 })).pos ⟨0, 0, 0⟩ = 0.03 + 0.03 ∧
    findSnowball 1 (tickSnowballInWorld 0.1
        { groundHeight := 0, snowballs := [], lastSpawnTime := 0, nextId := 0 }
        0).snowballs
      = findSnowball 1
          ({ groundHeight := 0, snowballs := [], lastSpawnTime := 0,
             nextId := 0 } : World).snowballs := by
  exact collide_pair_repositions_exactly 0.1
    { pos := ⟨0.045, 0, 0⟩, velocity := Vec3.zero, radius := 0.03,
      baseRadius := 0.03, scale := 1 }
    { pos := ⟨0, 0, 0⟩, velocity := Vec3.zero, radius := 0.03,
      baseRadius := 0.03, scale := 1 }
    { groundHeight := 0, snowballs := [], lastSpawnTime := 0, nextId := 0 } 0 1
    (by dsimp only
        rw [vdist_xaxis, abs_sub_eval (show (0.045:ℝ) - 0 = 0.045 by norm_num) (by norm_num)]
        norm_num)
    (by dsimp only
        rw [vdist_xaxis, abs_sub_eval (show (0.045:ℝ) - 0 = 0.045 by norm_num) (by norm_num)]
        norm_num)
    (by norm_num)

/-- C3 counterexample: with three bodies in a row (resolved body A at
x = 0.05 between B at the origin and C at x = 0.1, all radii 0.03, all at
rest on the ground), A initially overlaps B by 0.01 m (distance 0.05).
After the full tick with its two passes, A sits at distance 0.04 from B:
not the 0.06 sum of radii, and the interpenetration with B grew from
0.01 to 0.02 across the passes, because each resolution against C pushes
A back into B. -/
theorem collision_pass_three_body_overlap_grows :
    vdist (⟨0.05, 0.03, 0⟩ : Vec3) ⟨0, 0.03, 0⟩ = 0.05 ∧
    (0:ℝ) < 0.05 ∧ (0.05:ℝ) < 0.03 + 0.03 ∧
    vdist (snowballTick 0 0.1
        [{ pos := ⟨0, 0.03, 0⟩, velocity := Vec3.zero, radius := 0.03,
           baseRadius := 0.03, scale := 1 },
         { pos := ⟨0.1, 0.03, 0⟩, velocity := Vec3.zero, radius := 0.03,
           baseRadius := 0.03, scale := 1 }]
        { pos := ⟨0.05, 0.03, 0⟩, velocity := Vec3.zero, radius := 0.03,
          baseRadius := 0.03, scale := 1 }).pos ⟨0, 0.03, 0⟩ = 0.04 ∧
    (0.04 : ℝ) ≠ 0.03 + 0.03 ∧
    ((0.03:ℝ) + 0.03) - 0.04 > ((0.03:ℝ) + 0.03) - 0.05 := by
  have habs1 : |(0.05:ℝ) - 0| = 0.05 := abs_sub_eval (by norm_num) (by norm_num)
  have habs2 : |(0.06:ℝ) - 0.1| = 0.04 := abs_sub_eval_neg (by norm_num) (by norm_num)
  have habs3 : |(0.04:ℝ) - 0| = 0.04 := abs_sub_eval (by norm_num) (by norm_num)
  have hcol1 : collideOne 0.1
      { pos := ⟨0, 0.03, 0⟩, velocity := Vec3.zero, radius := 0.03,
        baseRadius := 0.03, scale := 1 }
      { pos := ⟨0.05, 0.03, 0⟩, velocity := ⟨0, 0, 0⟩, radius := 0.03,
        baseRadius := 0.03, scale := 1 }
      = { pos := ⟨0.06, 0.03, 0⟩, velocity := ⟨0, 0, 0⟩, radius := 0.03,
          baseRadius := 0.03, scale := 1 } := by
    rw [collideOne_xaxis 0.1 0.05 0 0.03 0.03 0.03 0.03 0.03 1 1 0 Vec3.zero
      (by norm_num) (by rw [habs1]; norm_num) (by rw [habs1]; norm_num)]
    simp only [habs1]
    norm_num [Snowball.mk.injEq, Vec3.mk.injEq]
  have hcol2 : collideOne 0.1
      { pos := ⟨0.1, 0.03, 0⟩, velocity := Vec3.zero, radius := 0.03,
        baseRadius := 0.03, scale := 1 }
      { pos := ⟨0.06, 0.03, 0⟩, velocity := ⟨0, 0, 0⟩, radius := 0.03,
        baseRadius := 0.03, scale := 1 }
      = { pos := ⟨0.04, 0.03, 0⟩, velocity := ⟨0, 0, 0⟩, radius := 0.03,
          baseRadius := 0.03, scale := 1 } := by
    rw [collideOne_xaxis 0.1 0.06 0.1 0.03 0.03 0.03 0.03 0.03 1 1 0 Vec3.zero
      (by norm_num) (by rw [habs2]; norm_num) (by rw [habs2]; norm_num)]
    simp only [habs2]
    norm_num [Snowball.mk.injEq, Vec3.mk.injEq]
  have hcol3 : collideOne 0.1
      { pos := ⟨0, 0.03, 0⟩, velocity := Vec3.zero, radius := 0.03,
        baseRadius := 0.03, scale := 1 }
      { pos := ⟨0.04, 0.03, 0⟩, velocity := ⟨0, 0, 0⟩, radius := 0.03,
        baseRadius := 0.03, scale := 1 }
      = { pos := ⟨0.06, 0.03, 0⟩, velocity := ⟨0, 0, 0⟩, radius := 0.03,
          baseRadius := 0.03, scale := 1 } := by
    rw [collideOne_xaxis 0.1 0.04 0 0.03 0.03 0.03 0.03 0.03 1 1 0 Vec3.zero
      (by norm_num) (by rw [habs3]; norm_num) (by rw [habs3]; norm_num)]
    simp only [habs3]
    norm_num [Snowball.mk.injEq, Vec3.mk.injEq]
  have htick : snowballTick 0 0.1
      [{ pos := ⟨0, 0.03, 0⟩, velocity := Vec3.zero, radius := 0.03,
         baseRadius := 0.03, scale := 1 },
       { pos := ⟨0.1, 0.03, 0⟩, velocity := Vec3.zero, radius := 0.03,
         baseRadius := 0.03, scale := 1 }]
      { pos := ⟨0.05, 0.03, 0⟩, velocity := Vec3.zero, radius := 0.03,
        baseRadius := 0.03, scale := 1 }
      = resolvePass 0.1
          [{ pos := ⟨0, 0.03, 0⟩, velocity := Vec3.zero, radius := 0.03,
             baseRadius := 0.03, scale := 1 },
           { pos := ⟨0.1, 0.03, 0⟩, velocity := Vec3.zero, radius := 0.03,
             baseRadius := 0.03, scale := 1 }]
          (resolvePass 0.1
            [{ pos := ⟨0, 0.03, 0⟩, velocity := Vec3.zero, radius := 0.03,
               baseRadius := 0.03, scale := 1 },
             { pos := ⟨0.1, 0.03, 0⟩, velocity := Vec3.zero, radius := 0.03,
               baseRadius := 0.03, scale := 1 }]
            { pos := ⟨0.05, 0.03, 0⟩, velocity := ⟨0, 0, 0⟩, radius := 0.03,
              baseRadius := 0.03, scale := 1 }) := by
    norm_num [snowballTick, vadd, vscale, Vec3.zero]
  have hpass : ∀ me : Snowball, collideOne 0.1
        { pos := ⟨0, 0.03, 0⟩, velocity := Vec3.zero, radius := 0.03,
          baseRadius := 0.03, scale := 1 } me
      = { pos := ⟨0.06, 0.03, 0⟩, velocity := ⟨0, 0, 0⟩, radius := 0.03,
          baseRadius := 0.03, scale := 1 } →
      resolvePass 0.1
        [{ pos := ⟨0, 0.03, 0⟩, velocity := Vec3.zero, radius := 0.03,
           baseRadius := 0.03, scale := 1 },
         { pos := ⟨0.1, 0.03, 0⟩, velocity := Vec3.zero, radius := 0.03,
           baseRadius := 0.03, scale := 1 }] me
      = { pos := ⟨0.04, 0.03, 0⟩, velocity := ⟨0, 0, 0⟩, radius := 0.03,
          baseRadius := 0.03, scale := 1 } := by
    intro me hme
    unfold resolvePass
    simp only [List.foldl_cons, List.foldl_nil]
    rw [hme, hcol2]
  refine ⟨by rw [vdist_xaxis, habs1], by norm_num, by norm_num, ?_, by norm_num, by norm_num⟩
  rw [htick, hpass _ hcol1, hpass _ hcol3]
  dsimp only
  rw [vdist_xaxis, habs3]

/-!
### Particle wrap (C9)
-/

/-- C9: in a particle's positional update, whenever the raw updated x (or
z) coordinate exceeds `+halfArea` the stored coordinate becomes exactly
`-halfArea`, and whenever it drops below `-halfArea` it becomes exactly
`+halfArea`: a teleport to the opposite edge, never a reflection.
(`halfArea ≥ 0` since the component clamps `area` to at least 1.) -/
theorem particle_wrap (time dt windX windZ halfArea : ℝ) (p : Particle)
    (hha : 0 ≤ halfArea) :
    (p.pos.x + windX * dt + Real.sin (time * 0.0012 + p.phase) * 0.12 * dt > halfArea →
      (particleMove time dt windX windZ halfArea p).pos.x = -halfArea) ∧
    (p.pos.x + windX * dt + Real.sin (time * 0.0012 + p.phase) * 0.12 * dt < -halfArea →
      (particleMove time dt windX windZ halfArea p).pos.x = halfArea) ∧
    (p.pos.z + windZ * dt + Real.cos (time * 0.0012 * 1.3 + p.phase) * 0.12 * dt > halfArea →
      (particleMove time dt windX windZ halfArea p).pos.z = -halfArea) ∧
    (p.pos.z + windZ * dt + Real.cos (time * 0.0012 * 1.3 + p.phase) * 0.12 * dt < -halfArea →
      (particleMove time dt windX windZ halfArea p).pos.z = halfArea) := by
  unfold particleMove wrapCoord
  dsimp only
  refine ⟨fun h => ?_, fun h => ?_, fun h => ?_, fun h => ?_⟩
  · rw [if_pos h]
  · rw [if_neg (by linarith), if_pos h]
  · rw [if_pos h]
  · rw [if_neg (by linarith), if_pos h]

/-- C9 witness: with `sin 0 = 0` and `cos 0 = 1`, a particle at
x = 2 (beyond halfArea = 1) wraps to x = -1, and a z moved to 2.12 by
wind wraps to z = -1. -/
theorem particle_wrap_witness :
    (particleMove 0 1 0 2 1
      { pos := ⟨2, 5, 0⟩, velocity := 1, phase := 0, scale := 1 }).pos.x = -1 ∧
    (particleMove 0 1 0 2 1
      { pos := ⟨2, 5, 0⟩, velocity := 1, phase := 0, scale := 1 }).pos.z = -1 := by
  refine ⟨(particle_wrap 0 1 0 2 1 _ (by norm_num)).1 ?_,
    (particle_wrap 0 1 0 2 1 _ (by norm_num)).2.2.1 ?_⟩
  · norm_num [Real.sin_zero]
  · norm_num [Real.cos_zero]

/-!
### Unconditional gravity in the snowball tick (C10)
-/

theorem snowballTick_airborne (g dt : ℝ) (s : Snowball) (hdt : 0 < dt)
    (hair : g + s.radius ≤ s.pos.y + (s.velocity.y + -9.8 * dt) * dt) :
    snowballTick g dt [] s
      = { s with
          pos := ⟨s.pos.x + dt * s.velocity.x,
                 s.pos.y + dt * (s.velocity.y + -9.8 * dt),
                 s.pos.z + dt * s.velocity.z⟩,
          velocity := ⟨s.velocity.x, s.velocity.y + -9.8 * dt, s.velocity.z⟩ } := by
  unfold snowballTick
  rw [if_neg (not_le.mpr hdt)]
  dsimp only [vadd, vscale]
  rw [if_neg (not_lt.mpr (by nlinarith))]
  unfold resolvePass
  simp only [List.foldl_nil]

theorem iterate_gravity (g dt : ℝ) (hdt : 0 < dt) :
    ∀ (n : ℕ) (s : Snowball),
      (∀ k < n, g + ((fun b => snowballTick g dt [] b)^[k] s).radius ≤
          ((fun b => snowballTick g dt [] b)^[k] s).pos.y +
          (((fun b => snowballTick g dt [] b)^[k] s).velocity.y + -9.8 * dt) * dt) →
      ((fun b => snowballTick g dt [] b)^[n] s).velocity.y = s.velocity.y - 9.8 * dt * n
  | 0, s, _ => by simp
  | (n + 1), s, hair => by
      have h0 := hair 0 (Nat.succ_pos n)
      simp only [Function.iterate_zero, id_eq] at h0
      have hstep := snowballTick_airborne g dt s hdt h0
      have hrest := iterate_gravity g dt hdt n (snowballTick g dt [] s) (fun k hk => by
        have h := hair (k + 1) (by omega)
        rw [Function.iterate_succ_apply] at h
        exact h)
      rw [Function.iterate_succ_apply]
      simp only at hrest ⊢
      rw [hrest, hstep]
      dsimp only
      push_cast
      ring

/-- C10: the snowball tick applies gravity and position integration
unconditionally whenever `dt > 0` — the function has no held/grabbed
input at all.  While its post-integration height stays at or above the
floor (as for a ball held up by the hand), `n` ticks accumulate exactly
`-9.8·dt·n` of vertical velocity on top of the initial velocity (zeroed
at grab time); and whenever the integrated height falls below
`groundHeight + radius`, the tick clamps the position to exactly that
floor height. -/
theorem snowball_tick_gravity_unconditional (g dt : ℝ) (s : Snowball) (n : ℕ)
    (hdt : 0 < dt)
    (hair : ∀ k < n, g + ((fun b => snowballTick g dt [] b)^[k] s).radius ≤
        ((fun b => snowballTick g dt [] b)^[k] s).pos.y +
        (((fun b => snowballTick g dt [] b)^[k] s).velocity.y + -9.8 * dt) * dt) :
    ((fun b => snowballTick g dt [] b)^[n] s).velocity.y = s.velocity.y - 9.8 * dt * n ∧
    (s.pos.y + (s.velocity.y + -9.8 * dt) * dt < g + s.radius →
      (snowballTick g dt [] s).pos.y = g + s.radius) := by
  refine ⟨iterate_gravity g dt hdt n s hair, fun hbelow => ?_⟩
  unfold snowballTick
  rw [if_neg (not_le.mpr hdt)]
  dsimp only [vadd, vscale]
  rw [if_pos (by nlinarith)]
  have hr := resolvePass_radius dt ([] : List Snowball)
  unfold resolvePass
  simp only [List.foldl_nil]

/-- C10 witness: from rest high above the ground, two 0.1 s ticks leave
vertical velocity exactly -1.96 m/s; and a tick whose integration dips
below the floor clamps the height to exactly `groundHeight + radius`. -/
theorem snowball_tick_gravity_unconditional_witness :
    ((fun b => snowballTick 0 0.1 [] b)^[2]
        { pos := ⟨0, 100, 0⟩, velocity := Vec3.zero, radius := 0.03,
          baseRadius := 0.03, scale := 1 }).velocity.y = -1.96 ∧
    (snowballTick 0 0.1 []
        { pos := ⟨0, 0, 0⟩, velocity := Vec3.zero, radius := 0.03,
          baseRadius := 0.03, scale := 1 }).pos.y = 0 + 0.03 := by
  constructor
  · have h := (snowball_tick_gravity_unconditional 0 0.1
      { pos := ⟨0, 100, 0⟩, velocity := Vec3.zero, radius := 0.03,
        baseRadius := 0.03, scale := 1 } 2 (by norm_num) ?hair).1
    · rw [h]
      norm_num [Vec3.zero]
    case hair =>
      intro k hk
      interval_cases k
      · simp only [Function.iterate_zero, id_eq]
        norm_num [Vec3.zero]
      · simp only [Function.iterate_one]
        norm_num [snowballTick, resolvePass, vadd, vscale, Vec3.zero]
  · exact (snowball_tick_gravity_unconditional 0 0.1
      { pos := ⟨0, 0, 0⟩, velocity := Vec3.zero, radius := 0.03,
        baseRadius := 0.03, scale := 1 } 0 (by norm_num)
      (fun k hk => absurd hk (Nat.not_lt_zero k))).2
      (by norm_num [Vec3.zero])

/-!
### Throw velocity on release (C4)
-/

/-- C4: the throw-velocity computation of `onGrabEnd` equals 60% of the
estimated hand velocity; it is exactly the zero vector when that scaled
speed is below 0.2 m/s; above 3.0 m/s it is rescaled by `3.0 / speed`,
so its magnitude is exactly 3.0 and its direction is an (unchanged)
positive multiple of the scaled hand velocity.  In particular hand speed
5 m/s gives thrown speed exactly 3.0 m/s, and hand speed 0.1 m/s gives
exactly the zero vector. -/
theorem throw_velocity_spec (v : Vec3) :
    (vnorm (vscale 0.6 v) < 0.2 → throwVel v = Vec3.zero) ∧
    (0.2 ≤ vnorm (vscale 0.6 v) → vnorm (vscale 0.6 v) ≤ 3.0 →
      throwVel v = vscale 0.6 v) ∧
    (vnorm (vscale 0.6 v) > 3.0 →
      throwVel v = vscale (3.0 / vnorm (vscale 0.6 v)) (vscale 0.6 v) ∧
      vnorm (throwVel v) = 3.0 ∧
      ∃ c : ℝ, 0 < c ∧ throwVel v = vscale c (vscale 0.6 v)) ∧
    (vnorm v = 5 → vnorm (throwVel v) = 3.0) ∧
    (vnorm v = 0.1 → throwVel v = Vec3.zero) := by
  refine ⟨fun h => ?_, fun h1 h2 => ?_, fun h => ?_, fun hv => ?_, fun hv => ?_⟩
  · unfold throwVel
    dsimp only
    rw [if_pos h]
  · unfold throwVel
    dsimp only
    rw [if_neg (not_lt.mpr h1), if_neg (not_lt.mpr h2)]
  · have hpos : 0 < vnorm (vscale 0.6 v) := lt_trans (by norm_num) h
    have heq : throwVel v = vscale (3.0 / vnorm (vscale 0.6 v)) (vscale 0.6 v) := by
      unfold throwVel
      dsimp only
      rw [if_neg (not_lt.mpr (by linarith)), if_pos h]
    refine ⟨heq, ?_, 3.0 / vnorm (vscale 0.6 v), div_pos (by norm_num) hpos, heq⟩
    rw [heq, vnorm_scale, abs_of_pos (div_pos (by norm_num) hpos),
      div_mul_cancel₀ _ (ne_of_gt hpos)]
  · have hs : vnorm (vscale 0.6 v) = 3.0 := by
      rw [vnorm_scale, abs_of_nonneg (by norm_num : (0:ℝ) ≤ 0.6), hv]
      norm_num
    unfold throwVel
    dsimp only
    rw [hs]
    rw [if_neg (by norm_num), if_neg (by norm_num)]
    exact hs
  · have hs : vnorm (vscale 0.6 v) = 0.06 := by
      rw [vnorm_scale, abs_of_nonneg (by norm_num : (0:ℝ) ≤ 0.6), hv]
      norm_num
    unfold throwVel
    dsimp only
    rw [hs]
    rw [if_pos (by norm_num)]

/-- C4 witness: hand velocity (5,0,0) is thrown at speed exactly 3.0;
hand velocity (0.1,0,0) is thrown as the exact zero vector. -/
theorem throw_velocity_spec_witness :
    vnorm (throwVel ⟨5, 0, 0⟩) = 3.0 ∧ throwVel ⟨0.1, 0, 0⟩ = Vec3.zero := by
  have h5 : vnorm (⟨5, 0, 0⟩ : Vec3) = 5 := by
    rw [vnorm_axis_x, abs_of_nonneg (by norm_num : (0:ℝ) ≤ 5)]
  have h01 : vnorm (⟨0.1, 0, 0⟩ : Vec3) = 0.1 := by
    rw [vnorm_axis_x, abs_of_nonneg (by norm_num : (0:ℝ) ≤ 0.1)]
  exact ⟨(throw_velocity_spec _).2.2.2.1 h5, (throw_velocity_spec _).2.2.2.2 h01⟩

/-!
### Hand state machine: stage lemmas
-/

theorem rollingStage_spawned (cfg : HandConfig) (st1 : HandState) (w1 : World)
    (hp : Vec3) (now : ℝ) (haps1 : List (ℝ × ℝ)) (spawned : Option Vec3) :
    (rollingStage cfg st1 w1 hp now haps1 spawned).spawned = spawned := by
  unfold rollingStage
  dsimp only
  repeat' split
  all_goals rfl

theorem rollingStage_grabbed (cfg : HandConfig) (st1 : HandState) (w1 : World)
    (hp : Vec3) (now : ℝ) (haps1 : List (ℝ × ℝ)) (spawned : Option Vec3) :
    (rollingStage cfg st1 w1 hp now haps1 spawned).state.grabbedSnowball
      = st1.grabbedSnowball := by
  unfold rollingStage
  dsimp only
  repeat' split
  all_goals rfl

theorem rollingStage_rolling_none (cfg : HandConfig) (st1 : HandState) (w1 : World)
    (hp : Vec3) (now : ℝ) (haps1 : List (ℝ × ℝ)) (spawned : Option Vec3)
    (h : st1.rollingSnowball = none) :
    (rollingStage cfg st1 w1 hp now haps1 spawned).state.rollingSnowball = none := by
  unfold rollingStage
  dsimp only
  repeat' split
  all_goals simp_all

theorem acquireStage_grabbed (cfg : HandConfig) (st0 : HandState)
    (arr : List (ℕ × Snowball)) (hp : Vec3) :
    (acquireStage cfg st0 arr hp).grabbedSnowball = st0.grabbedSnowball := by
  unfold acquireStage
  repeat' split
  all_goals rfl

theorem acquireStage_of_grabbed (cfg : HandConfig) (st0 : HandState)
    (arr : List (ℕ × Snowball)) (hp : Vec3) (g : ℕ)
    (h : st0.grabbedSnowball = some g) :
    acquireStage cfg st0 arr hp = st0 := by
  have hc : ¬ (st0.rollingSnowball = none ∧ st0.grabbedSnowball = none) := by
    rintro ⟨-, h2⟩
    rw [h] at h2
    exact Option.noConfusion h2
  unfold acquireStage
  rw [if_neg hc]

theorem handTick_grabbed (cfg : HandConfig) (st : HandState) (w : World) (inp : TickIn) :
    (handTick cfg st w inp).state.grabbedSnowball = st.grabbedSnowball := by
  unfold handTick
  dsimp only
  rw [rollingStage_grabbed, acquireStage_grabbed]

theorem handTick_exclusive (cfg : HandConfig) (st : HandState) (w : World) (inp : TickIn)
    (h : st.rollingSnowball = none ∨ st.grabbedSnowball = none) :
    (handTick cfg st w inp).state.rollingSnowball = none ∨
    (handTick cfg st w inp).state.grabbedSnowball = none := by
  rcases h with hr | hg
  · cases hg : st.grabbedSnowball with
    | none =>
        right
        rw [handTick_grabbed]
        exact hg
    | some g =>
        left
        unfold handTick
        dsimp only
        rw [acquireStage_of_grabbed _ _ _ _ g (by exact hg)]
        exact rollingStage_rolling_none _ _ _ _ _ _ _ hr
  · right
    rw [handTick_grabbed]
    exact hg

theorem grabStart_exclusive (cfg : HandConfig) (st : HandState) (w : World) (hp : Vec3)
    (h : st.rollingSnowball = none ∨ st.grabbedSnowball = none) :
    (grabStart cfg st w hp).1.rollingSnowball = none ∨
    (grabStart cfg st w hp).1.grabbedSnowball = none := by
  unfold grabStart
  dsimp only
  repeat' split
  all_goals simp_all

theorem grabEnd_exclusive (cfg : HandConfig) (st : HandState) (w : World)
    (h : st.rollingSnowball = none ∨ st.grabbedSnowball = none) :
    (grabEnd cfg st w).1.rollingSnowball = none ∨
    (grabEnd cfg st w).1.grabbedSnowball = none := by
  unfold grabEnd
  dsimp only
  repeat' split
  all_goals simp_all

/-- C6: along every event history (frame ticks, grab starts, grab ends)
from the initial hand state, at most one of `rollingSnowball` and
`grabbedSnowball` is non-null: rolling acquisition requires both null,
a grab clears the rolling reference as it sets the grabbed one, and no
operation sets both. -/
theorem hand_at_most_one_reference (cfg : HandConfig) (w0 : World)
    (events : List HandEvent) :
    (runHand cfg w0 events).1.rollingSnowball = none ∨
    (runHand cfg w0 events).1.grabbedSnowball = none := by
  suffices h : ∀ s : HandState × World,
      (s.1.rollingSnowball = none ∨ s.1.grabbedSnowball = none) →
      ((events.foldl (handStep cfg) s).1.rollingSnowball = none ∨
       (events.foldl (handStep cfg) s).1.grabbedSnowball = none) by
    exact h (initHandState, w0) (Or.inl rfl)
  induction events with
  | nil => exact fun s hs => hs
  | cons e rest ih =>
      intro s hs
      simp only [List.foldl_cons]
      apply ih
      cases e with
      | frame inp => exact handTick_exclusive cfg s.1 s.2 inp hs
      | gripDown hp => exact grabStart_exclusive cfg s.1 s.2 hp hs
      | gripUp => exact grabEnd_exclusive cfg s.1 s.2 hs

/-- C5: the whole hand behaviour is independent of the configured
`crushThreshold`: changing only that field leaves the tick (crush
decisions, snowball state, spawns, haptics) and both grab handlers
bitwise identical, because the crush detection reads only the hardcoded
0.55 and 0.25 radius ratios and nothing ever reads `crushThreshold`. -/
theorem crushThreshold_never_read (cfg : HandConfig) (c : ℝ) (st : HandState)
    (w : World) (inp : TickIn) (hp : Vec3) :
    handTick { cfg with crushThreshold := c } st w inp = handTick cfg st w inp ∧
    grabStart { cfg with crushThreshold := c } st w hp = grabStart cfg st w hp ∧
    grabEnd { cfg with crushThreshold := c } st w = grabEnd cfg st w :=
  ⟨rfl, rfl, rfl⟩

/-!
### Spawn-by-drag (C8)
-/

/-- C8 amended: in any tick, a drag-spawn is produced (at the
ground-projected smoothed hand point, at height `groundHeight + 0.03`)
exactly when the hand is neither rolling nor grabbing, *strictly more
than* 350 ms have elapsed since the shared last-spawn timestamp, the
smoothed hand point is within `handRadius + 0.05` above `groundHeight`,
the per-tick horizontal displacement exceeds 0.005, and the per-tick
vertical displacement exceeds 0.006; in particular no spawn ever happens
when at most 350 ms have elapsed. -/
theorem spawn_by_drag_characterization (cfg : HandConfig) (st : HandState)
    (w : World) (inp : TickIn) :
    ((handTick cfg st w inp).spawned =
      (let dt := max 0.001 (inp.dtMs / 1000)
       let handPoint := vlerp (st.smoothedHandPoint.getD inp.rawHandPoint)
         inp.rawHandPoint (1 - Real.exp (-(dt * 18)))
       let rawDelta := match st.prevHandPosition with
         | some p => vsub handPoint p
         | none => Vec3.zero
       if st.rollingSnowball = none ∧ st.grabbedSnowball = none ∧
           inp.now - w.lastSpawnTime > 350 ∧
           handPoint.y ≤ w.groundHeight + cfg.handRadius + 0.05 ∧
           hypot2 rawDelta.x rawDelta.z > 0.005 ∧
           rawDelta.y > 0.006
       then some ⟨handPoint.x, w.groundHeight + 0.03, handPoint.z⟩
       else none)) ∧
    (inp.now - w.lastSpawnTime ≤ 350 → (handTick cfg st w inp).spawned = none) := by
  have hmain : (handTick cfg st w inp).spawned =
      (let dt := max 0.001 (inp.dtMs / 1000)
       let handPoint := vlerp (st.smoothedHandPoint.getD inp.rawHandPoint)
         inp.rawHandPoint (1 - Real.exp (-(dt * 18)))
       let rawDelta := match st.prevHandPosition with
         | some p => vsub handPoint p
         | none => Vec3.zero
       if st.rollingSnowball = none ∧ st.grabbedSnowball = none ∧
           inp.now - w.lastSpawnTime > 350 ∧
           handPoint.y ≤ w.groundHeight + cfg.handRadius + 0.05 ∧
           hypot2 rawDelta.x rawDelta.z > 0.005 ∧
           rawDelta.y > 0.006
       then some ⟨handPoint.x, w.groundHeight + 0.03, handPoint.z⟩
       else none) := by
    unfold handTick
    dsimp only
    rw [rollingStage_spawned]
  refine ⟨hmain, fun hthrottle => ?_⟩
  rw [hmain]
  dsimp only
  rw [if_neg (fun hc => absurd hc.2.2.1 (not_lt.mpr hthrottle))]

/-- C8 witness: a tick 300 ms after the last spawn (inside the throttle
window) produces no spawn, whatever the other conditions. -/
theorem spawn_by_drag_characterization_witness :
    (handTick
      { handRadius := 0.03, releasePadding := 0.05, pushStrength := 3.0,
        sinkDepth := 0.02, rollThreshold := 0.008, crushThreshold := 0.03,
        fingertipOffset := ⟨0, -0.05, 0⟩, debug := false }
      initHandState
      { groundHeight := 0, snowballs := [], lastSpawnTime := 0, nextId := 0 }
      { rawHandPoint := ⟨0.02, 0.05, 0⟩, dtMs := 16, now := 300 }).spawned = none := by
  exact (spawn_by_drag_characterization _ _ _ _).2 (by norm_num)

/-- C8 counterexample: a tick at exactly 350 ms since the last spawn
("at least 350 ms have elapsed"), with the hand idle, the smoothed hand
point 0.05 m above ground (within `handRadius + 0.05 = 0.08`), a 0.02 m
horizontal and 0.01 m vertical per-tick displacement — every condition
of the claim — yet no snowball is spawned: the code gates on
`now - lastSpawnTime > 350`, strictly. -/
theorem spawn_missed_at_exact_throttle :
    ((350:ℝ) - 0 ≥ 350) ∧
    (initHandState.rollingSnowball = none ∧ initHandState.grabbedSnowball = none) ∧
    vlerp ((some (⟨0.02, 0.05, 0⟩ : Vec3)).getD ⟨0.02, 0.05, 0⟩) ⟨0.02, 0.05, 0⟩
      (1 - Real.exp (-(max 0.001 ((16:ℝ) / 1000) * 18))) = ⟨0.02, 0.05, 0⟩ ∧
    vsub (⟨0.02, 0.05, 0⟩ : Vec3) ⟨0, 0.04, 0⟩ = ⟨0.02, 0.01, 0⟩ ∧
    ((0.05:ℝ) ≤ 0 + 0.03 + 0.05) ∧
    hypot2 0.02 0 > 0.005 ∧ ((0.01:ℝ) > 0.006) ∧
    (handTick
      { handRadius := 0.03, releasePadding := 0.05, pushStrength := 3.0,
        sinkDepth := 0.02, rollThreshold := 0.008, crushThreshold := 0.03,
        fingertipOffset := ⟨0, -0.05, 0⟩, debug := false }
      { initHandState with
        smoothedHandPoint := some ⟨0.02, 0.05, 0⟩,
        prevHandPosition := some ⟨0, 0.04, 0⟩ }
      { groundHeight := 0, snowballs := [], lastSpawnTime := 0, nextId := 0 }
      { rawHandPoint := ⟨0.02, 0.05, 0⟩, dtMs := 16, now := 350 }).spawned = none := by
  refine ⟨by norm_num, ⟨rfl, rfl⟩, vlerp_self _ _, by unfold vsub; ext <;> norm_num,
    by norm_num, ?_, by norm_num, ?_⟩
  · unfold hypot2
    rw [show (0.02:ℝ) ^ 2 + 0 ^ 2 = 0.02 ^ 2 by norm_num, Real.sqrt_sq (by norm_num)]
    norm_num
  · unfold handTick
    dsimp only
    rw [rollingStage_spawned]
    rw [if_neg (fun hc => absurd hc.2.2.1 (by norm_num))]

end SnowVR
